import Mathlib

/-!
Shallow embedding of the SuperBot Platform dashboard (Next.js/TypeScript) for
verification of its natural-language specification.

The definitions below are translated from the repository sources:
- superbot_platform/dashboard/app/live/[token]/page.tsx (live portal)
- superbot_platform/dashboard/hooks/useConversation.ts
- superbot_platform/dashboard/app/dash/conversations/page.tsx (staff list)
- superbot_platform/dashboard/app/dash/conversations/[project_id]/[conversation_id]/page.tsx
- superbot_platform/dashboard/lib/i18n/index.tsx
- the axios API client (request/response interceptors), login page,
  admin client page and Meta configuration wizard.
-/

namespace Superbot

/-! ## JSON values

Model of the JavaScript values flowing through the dashboard
(message payloads, conversation metadata, request bodies). -/

inductive Json where
  | null
  | bool (b : Bool)
  | num (n : Int)
  | str (s : String)
  | arr (items : List Json)
  | obj (fields : List (String × Json))

/-- Property access `j.key` as used on webhook payloads: defined on objects,
`undefined` (here `none`) on everything else. -/
def Json.getField : Json → String → Option Json
  | .obj fields, key => fields.lookup key
  | _, _ => none

/-- Index access `j[i]`: defined on arrays, `undefined` on everything else. -/
def Json.getIndex : Json → Nat → Option Json
  | .arr items, i => items.get? i
  | _, _ => none

/-- `.length` of a value: arrays report their length, everything else has none. -/
def Json.lengthVal : Json → Option Json
  | .arr items => some (.num items.length)
  | _ => none

/-- JavaScript truthiness of a JSON value. -/
def Json.truthy : Json → Bool
  | .null => false
  | .bool b => b
  | .num n => n != 0
  | .str s => s != ""
  | .arr _ => true
  | .obj _ => true

/-- JavaScript string coercion as applied when a payload value is rendered or
interpolated into a template literal; exact on strings, which is the case the
dashboard relies on. -/
def Json.display : Json → String
  | .str s => s
  | .num n => toString n
  | .bool b => if b then "true" else "false"
  | .null => "null"
  | .arr _ => ""
  | .obj _ => "[object Object]"

/-- Truthiness of an optional value (`undefined` is falsy). -/
def optTruthy : Option Json → Bool
  | some j => j.truthy
  | none => false

/-- Truthiness of a nullable string, as in `if (msg.text)`. -/
def strTruthy : Option String → Bool
  | some s => s != ""
  | none => false

/-! ## Messages and conversations -/

structure Message where
  id : String
  direction : String
  message_type : String
  text : Option String
  media : Option Json := none
  raw_payload : Option Json := none
  created_at : String := ""

structure Conversation where
  project_id : String
  conversation_id : String
  contact_name : Option String := none
  channel_type : String := ""
  status : String
  last_event_at : String := ""
  metadata : Option Json := none
  messages : List Message := []

/-! ## getMessageText (conversation viewer page) -/

/-- `raw.entry?.[0]?.messaging?.[0]` on a Meta webhook payload. -/
def metaMessaging (raw : Json) : Option Json :=
  (((raw.getField "entry").bind (fun e => e.getIndex 0)).bind
      (fun e0 => e0.getField "messaging")).bind
    (fun ms => ms.getIndex 0)

/-- The try-block of `getMessageText`: derive a display string from the Meta
webhook payload. Mirrors the source's cascade: nested message text, story
reply marker, bracketed first-attachment type, postback title. -/
def rawPayloadText (raw : Json) : Option String :=
  let messaging := metaMessaging raw
  let m := messaging.bind (fun mg => mg.getField "message")
  let mtext := m.bind (fun mm => mm.getField "text")
  if optTruthy mtext then
    mtext.map Json.display
  else if optTruthy ((m.bind (fun mm => mm.getField "reply_to")).bind
      (fun r => r.getField "story")) then
    some "[Resposta a story]"
  else if optTruthy ((m.bind (fun mm => mm.getField "attachments")).bind
      Json.lengthVal) then
    let t0 := ((m.bind (fun mm => mm.getField "attachments")).bind
        (fun a => a.getIndex 0)).bind (fun a0 => a0.getField "type")
    let t := if optTruthy t0 then (t0.map Json.display).getD "attachment"
             else "attachment"
    some ("[" ++ t ++ "]")
  else
    let pb := messaging.bind (fun mg => mg.getField "postback")
    if optTruthy pb then
      let title := pb.bind (fun p => p.getField "title")
      some (if optTruthy title then (title.map Json.display).getD "[postback]"
            else "[postback]")
    else
      none

/-- `getMessageText` from the conversation viewer page: the stored text when
truthy, otherwise a display string derived from the raw webhook payload,
otherwise null. -/
def getMessageText (msg : Message) : Option String :=
  if strTruthy msg.text then msg.text
  else
    match msg.raw_payload with
    | none => none
    | some raw => if raw.truthy then rawPayloadText raw else none

/-! ## Browser local storage

Typed model of `localStorage` as used by the dashboard: string values for
tokens, ids and locales, and the JSON-serialized user object under 'user'. -/

structure User where
  role : String
  client_id : Option String := none
  client_name : Option String := none
deriving DecidableEq, Repr

inductive StoredVal where
  | str (s : String)
  | user (u : User)
deriving DecidableEq, Repr

abbrev Store := List (String × StoredVal)

def Store.get : Store → String → Option StoredVal
  | [], _ => none
  | (k₂, v) :: rest, k => if k = k₂ then some v else Store.get rest k

def Store.remove : Store → String → Store
  | [], _ => []
  | (k₂, v) :: rest, k =>
      if k₂ = k then Store.remove rest k else (k₂, v) :: Store.remove rest k

def Store.set (st : Store) (k : String) (v : StoredVal) : Store :=
  (k, v) :: Store.remove st k

/-- `localStorage.getItem` restricted to plain string values. -/
def getStr (st : Store) (k : String) : Option String :=
  match Store.get st k with
  | some (.str s) => some s
  | _ => none

theorem Store.get_remove_other (st : Store) (k k' : String) (h : k' ≠ k) :
    Store.get (Store.remove st k) k' = Store.get st k' := by
  induction st with
  | nil => rfl
  | cons p rest ih =>
    obtain ⟨pk, pv⟩ := p
    by_cases hk : pk = k
    · subst hk
      simp [Store.remove, ih, Store.get, if_neg h]
    · simp only [Store.remove, if_neg hk, Store.get, ih]

theorem Store.get_remove_self (st : Store) (k : String) :
    Store.get (Store.remove st k) k = none := by
  induction st with
  | nil => rfl
  | cons p rest ih =>
    obtain ⟨pk, pv⟩ := p
    by_cases hk : pk = k
    · simp only [Store.remove, if_pos hk, ih]
    · simp only [Store.remove, if_neg hk, Store.get, ih]
      rw [if_neg (fun hkk => hk hkk.symm)]

theorem Store.get_set_self (st : Store) (k : String) (v : StoredVal) :
    Store.get (Store.set st k v) k = some v := by
  simp [Store.set, Store.get]

theorem Store.get_set_other (st : Store) (k k' : String) (v : StoredVal)
    (h : k' ≠ k) :
    Store.get (Store.set st k v) k' = Store.get st k' := by
  simp only [Store.set, Store.get, if_neg h]
  exact Store.get_remove_other st k k' h

theorem getStr_set_self (st : Store) (k s : String) :
    getStr (Store.set st k (.str s)) k = some s := by
  simp [getStr, Store.get_set_self]

theorem getStr_set_other (st : Store) (k k' : String) (v : StoredVal)
    (h : k' ≠ k) :
    getStr (Store.set st k v) k' = getStr st k' := by
  simp [getStr, Store.get_set_other st k k' v h]

/-! ## HTTP requests issued by the dashboard -/

structure Request where
  method : String
  path : String
  headers : List (String × String)
  params : List (String × String) := []
  body : Option Json := none

def contentTypeHeader : String × String := ("Content-Type", "application/json")

/-- `portalFetch` of the live portal page: plain `fetch` against the API with a
Content-Type header and any caller-supplied headers spread after it; no
Authorization header is added anywhere. -/
def portalFetchRequest (method path : String)
    (extraHeaders : List (String × String)) (body : Option Json) : Request :=
  { method, path, headers := [contentTypeHeader] ++ extraHeaders, body }

/-- The authenticated axios client: the request interceptor attaches
`Authorization: Bearer token` when a token is in local storage. -/
def apiHeaders (st : Store) : List (String × String) :=
  [contentTypeHeader] ++
    (match getStr st "token" with
     | some t => [("Authorization", "Bearer " ++ t)]
     | none => [])

/-! ## Live portal page (app/live/[token]/page.tsx) -/

inductive PortalType where
  | portal
  | liveView
deriving DecidableEq, Repr

/-- Requests the portal page issues, all through `portalFetch` with no extra
headers; the token's only occurrence is in the URL path. -/
def liveInitialRequest (token : String) : Request :=
  portalFetchRequest "GET" ("/api/live/" ++ token) [] none

def liveListRequest (token : String) : Request :=
  portalFetchRequest "GET" ("/api/live/" ++ token ++ "/conversations?limit=100")
    [] none

def liveDetailRequest (token conversationId : String) : Request :=
  portalFetchRequest "GET"
    ("/api/live/" ++ token ++ "/conversations/" ++ conversationId) [] none

def liveSendRequest (token conversationId text : String) : Request :=
  portalFetchRequest "POST"
    ("/api/live/" ++ token ++ "/conversations/" ++ conversationId ++ "/send")
    [] (some (.obj [("text", .str text)]))

def liveStatusRequest (token conversationId newStatus : String) : Request :=
  portalFetchRequest "PATCH"
    ("/api/live/" ++ token ++ "/conversations/" ++ conversationId ++ "/status")
    [] (some (.obj [("status", .str newStatus),
                    ("reason", .str "Alterado via portal")]))

def liveFollowupRequest (token conversationId : String)
    (followupDate : Option String) : Request :=
  portalFetchRequest "PATCH"
    ("/api/live/" ++ token ++ "/conversations/" ++ conversationId ++
      "/followup")
    []
    (some (.obj
      [("next_followup_at",
        match followupDate with
        | some d => .str d
        | none => Json.null),
       ("followup_stage",
        .num (match followupDate with | some _ => 1 | none => 0))]))

/-- All requests the live portal page can issue for a given token. -/
def livePortalRequests (token conversationId text newStatus : String)
    (followupDate : Option String) : List Request :=
  [liveInitialRequest token,
   liveListRequest token,
   liveDetailRequest token conversationId,
   liveSendRequest token conversationId text,
   liveStatusRequest token conversationId newStatus,
   liveFollowupRequest token conversationId followupDate]

/-- Token-type detection in the initial effect of PortalPage: a response with
type 'portal' selects the portal mode; otherwise a response carrying a
messages array selects the single-conversation live view. -/
def detectPortalType (respType : Option String)
    (respMessages : Option (List Message)) : Option PortalType :=
  if respType = some "portal" then some .portal
  else if respMessages.isSome then some .liveView
  else none

/-- Interval of the list-polling effect: only active while the token type is
'portal', at 10000 ms. -/
def listPollTimerMs (portalType : Option PortalType) : Option Nat :=
  if portalType = some .portal then some 10000 else none

/-- The ConversationView polling effect refreshes the detail endpoint every
3000 ms whenever a conversation is displayed. -/
def conversationViewPollIntervalMs : Nat := 3000

/-- Default pollInterval of useConversation; the staff viewer passes 5000
explicitly as well. -/
def useConversationDefaultPollIntervalMs : Nat := 5000

/-- Every interval at which the live portal page re-polls the backend. -/
def livePortalPollIntervalsMs : List Nat :=
  [10000, conversationViewPollIntervalMs]

/-- `canAct` in ConversationView: write actions are available exactly for
portal tokens. -/
def canAct (portalType : PortalType) : Bool :=
  portalType = PortalType.portal

/-- The reply box is rendered under `canAct`. -/
def replyBoxVisible (portalType : PortalType) : Bool := canAct portalType

/-- The follow-up scheduler button and the status toggle are rendered under
`canAct`. -/
def statusToggleVisible (portalType : PortalType) : Bool := canAct portalType

def followupButtonVisible (portalType : PortalType) : Bool := canAct portalType

/-- The read-only footer is rendered when `canAct` is false. -/
def readOnlyFooterVisible (portalType : PortalType) : Bool := !canAct portalType

/-! ## Conversation status transitions -/

/-- Body of a status PATCH: `JSON.stringify` drops an undefined reason. -/
def statusJson (newStatus : String) (reason : Option String) : Json :=
  .obj ([("status", .str newStatus)] ++
    (match reason with
     | some r => [("reason", .str r)]
     | none => []))

/-- `updateStatus` of useConversation: PATCH to the conversation's /status
endpoint. -/
def updateStatusRequest (st : Store) (projectId conversationId : String)
    (newStatus : String) (reason : Option String) : Request :=
  { method := "PATCH"
    path := "/api/conversations/" ++ projectId ++ "/" ++ conversationId ++
      "/status"
    headers := apiHeaders st
    body := some (statusJson newStatus reason) }

/-- `handleQuickStatus` of the staff conversation list: PATCH to the same
/status endpoint with a fixed reason per direction. -/
def quickStatusRequest (st : Store) (conv : Conversation)
    (newStatus : String) : Request :=
  { method := "PATCH"
    path := "/api/conversations/" ++ conv.project_id ++ "/" ++
      conv.conversation_id ++ "/status"
    headers := apiHeaders st
    body := some (statusJson newStatus
      (some (if newStatus = "handoff" then "Transferido para humano via lista"
             else "Devolvido ao bot via lista"))) }

/-- Hand-off control of the staff conversation viewer: when the conversation is
not in handoff the only button offered targets 'handoff'; in handoff the only
button offered targets 'open'. -/
def viewerOfferedTarget (status : String) : String :=
  if status = "handoff" then "open" else "handoff"

/-- Same two-state control in the live portal's ConversationView. -/
def portalOfferedTarget (status : String) : String :=
  if status = "handoff" then "open" else "handoff"

/-- Same control in the staff conversation list's quick-status buttons. -/
def listOfferedTarget (status : String) : String :=
  if status ≠ "handoff" then "handoff" else "open"

/-- `conv.metadata?.human_takeover_until`: the time-boxed pause window. -/
def takeoverUntil (conv : Conversation) : Option Json :=
  conv.metadata.bind (fun m => m.getField "human_takeover_until")

/-- The paused-bot banner is rendered when the conversation is in handoff and
the takeover deadline is present in the metadata. -/
def handoffBannerVisible (conv : Conversation) : Bool :=
  (conv.status = "handoff" : Bool) && optTruthy (takeoverUntil conv)

/-! ## Polling layout across the dashboard views -/

structure ViewPolling where
  view : String
  fetchesOnMount : Bool
  pollIntervalMs : Option Nat
deriving DecidableEq, Repr

/-- Staff conversation viewer: useConversation with pollInterval 5000. -/
def staffViewerPolling : ViewPolling :=
  { view := "staff conversation viewer", fetchesOnMount := true
    pollIntervalMs := some 5000 }

/-- Live portal conversation list: setInterval(loadConversations, 10000). -/
def portalListPolling : ViewPolling :=
  { view := "live portal conversation list", fetchesOnMount := true
    pollIntervalMs := some 10000 }

/-- Live portal conversation detail: setInterval(refresh, 3000). -/
def portalDetailPolling : ViewPolling :=
  { view := "live portal conversation detail", fetchesOnMount := true
    pollIntervalMs := some 3000 }

/-- Staff/mobile conversation list pages: loadConversations is called once
from the mount effect; neither file contains a setInterval. -/
def conversationsListPolling : ViewPolling :=
  { view := "staff conversation list", fetchesOnMount := true
    pollIntervalMs := none }

/-- The near-duplicate data-refresh implementations named by the spec. -/
def dashboardPollingImpls : List ViewPolling :=
  [staffViewerPolling, portalListPolling, portalDetailPolling,
   conversationsListPolling]

/-! ## Reply sending (staff viewer handleSend / portal handleSend) -/

structure SendUiState where
  replyText : String
  sending : Bool
  sendError : Option String
deriving DecidableEq, Repr

structure SendOutcome where
  state : SendUiState
  requestSent : Bool
  refetched : Bool
deriving DecidableEq, Repr

/-- JavaScript `String.prototype.trim`: strip leading and trailing
whitespace. -/
def jsTrim (s : String) : String :=
  String.mk
    (((s.data.dropWhile Char.isWhitespace).reverse.dropWhile
      Char.isWhitespace).reverse)

/-- The guard expression shared by the send button's disabled attribute and
the head of both handleSend functions: blank trimmed text or a send already
in flight. -/
def sendButtonDisabled (st : SendUiState) : Bool :=
  jsTrim st.replyText == "" || st.sending

/-- `handleSend` of the staff viewer: guard on trimmed text and in-flight
send, then `sendMessage(trimmed)` which POSTs and refetches the conversation;
on failure the thrown message lands in sendError and the input is untouched. -/
def dashHandleSend (st : SendUiState) (sendResult : Except String Unit) :
    SendOutcome :=
  if sendButtonDisabled st then
    { state := st, requestSent := false, refetched := false }
  else
    match sendResult with
    | .ok _ =>
        { state := { replyText := "", sending := false, sendError := none }
          requestSent := true, refetched := true }
    | .error e =>
        { state := { st with sendError := some e, sending := false }
          requestSent := true, refetched := false }

/-- `handleSend` of the portal ConversationView: same guard; after a
successful POST the input is cleared and the detail endpoint is refetched
(whose own failure only sets sendError). -/
def portalHandleSend (st : SendUiState) (sendResult : Except String Unit)
    (refetchResult : Except String Unit) : SendOutcome :=
  if sendButtonDisabled st then
    { state := st, requestSent := false, refetched := false }
  else
    match sendResult with
    | .error e =>
        { state := { st with sendError := some e, sending := false }
          requestSent := true, refetched := false }
    | .ok _ =>
        match refetchResult with
        | .ok _ =>
            { state := { replyText := "", sending := false, sendError := none }
              requestSent := true, refetched := true }
        | .error e =>
            { state := { replyText := "", sending := false,
                         sendError := some e }
              requestSent := true, refetched := true }

/-! ## Axios response interceptor (both shared api clients) -/

structure InterceptResult where
  store : Store
  redirect : Option String
  rejected : Bool
deriving DecidableEq, Repr

/-- The error handler of `api.interceptors.response`: a 401 clears the stored
token and redirects to /login, then the promise is rejected; any other error
is rejected untouched. `status` is none for network errors without a
response. -/
def responseErrorInterceptor (status : Option Nat) (st : Store) :
    InterceptResult :=
  if status = some 401 then
    { store := Store.remove st "token", redirect := some "/login"
      rejected := true }
  else
    { store := st, redirect := none, rejected := true }

/-- Full response dispatch: axios' default validateStatus passes 2xx responses
through the identity success handler and routes everything else to the error
handler. -/
def responseInterceptor (status : Nat) (st : Store) : InterceptResult :=
  if 200 ≤ status ∧ status < 300 then
    { store := st, redirect := none, rejected := false }
  else
    responseErrorInterceptor (some status) st

/-! ## Login, tenant selection and resolution -/

/-- Local-storage writes of handleLogin after a successful POST
/api/auth/login: token and user always, plus the tenant keys for client-role
users with a truthy client_id. -/
def handleLoginStore (accessToken : String) (user : User) (st : Store) :
    Store :=
  let st1 := Store.set (Store.set st "token" (.str accessToken)) "user"
    (.user user)
  if user.role = "client" then
    match user.client_id with
    | some cid =>
        if cid ≠ "" then
          Store.set (Store.set st1 "active_tenant_id" (.str cid))
            "active_tenant_name" (.str (user.client_name.getD ""))
        else st1
    | none => st1
  else st1

structure Client where
  id : String
  name : String
deriving DecidableEq, Repr

/-- handleOpenDashboard on the admin page stores the chosen client under the
same two tenant keys. -/
def handleOpenDashboardStore (c : Client) (st : Store) : Store :=
  Store.set (Store.set st "active_tenant_id" (.str c.id))
    "active_tenant_name" (.str c.name)

/-- Tenant resolution shared by the dashboard pages (conversation list, Meta
wizard): parse the stored user; admins read active_tenant_id, everyone else
uses their own client_id; none when no user is stored or it is unparsable. -/
def resolveTenantId (st : Store) : Option String :=
  match Store.get st "user" with
  | some (.user u) =>
      if u.role = "admin" then getStr st "active_tenant_id"
      else u.client_id
  | _ => none

/-- The conversation-list request: GET /api/conversations/ with the resolved
tenant as the project_id query parameter. -/
def conversationsListRequest (st : Store) (tenantId : String) : Request :=
  { method := "GET", path := "/api/conversations/", headers := apiHeaders st
    params := [("project_id", tenantId)] }

/-- The list page only issues the request for a truthy resolved tenant. -/
def listRequestIssued (st : Store) : Option Request :=
  match resolveTenantId st with
  | some t => if t ≠ "" then some (conversationsListRequest st t) else none
  | none => none

/-- fetchConversation of useConversation: the conversation-detail request,
with the project id in the path. -/
def conversationDetailRequest (st : Store)
    (projectId conversationId : String) : Request :=
  { method := "GET"
    path := "/api/conversations/" ++ projectId ++ "/" ++ conversationId
    headers := apiHeaders st }

/-- Route the staff list navigates to for a conversation: the detail page's
project_id route param is the tenant-scoped conversation's project_id. -/
def conversationRoutePath (conv : Conversation) : String :=
  "/dash/conversations/" ++ conv.project_id ++ "/" ++ conv.conversation_id

/-- loadCurrentConfig of the Meta wizard: GET /api/config/meta/ with the
resolved tenant in the path. -/
def metaConfigRequest (st : Store) (tenantId : String) : Request :=
  { method := "GET", path := "/api/config/meta/" ++ tenantId
    headers := apiHeaders st }

/-- The wizard only loads the config for a truthy resolved tenant. -/
def metaConfigRequestIssued (st : Store) : Option Request :=
  match resolveTenantId st with
  | some t => if t ≠ "" then some (metaConfigRequest st t) else none
  | none => none

/-! ## i18n provider (lib/i18n/index.tsx) -/

/-- Tenant resolution in the i18n provider: like resolveTenantId but falling
back to active_tenant_id when no user is stored or parsing fails. -/
def i18nResolveTenantId (st : Store) : Option String :=
  match Store.get st "user" with
  | some (.user u) =>
      if u.role = "admin" then getStr st "active_tenant_id"
      else u.client_id
  | _ => getStr st "active_tenant_id"

/-- savedKey: the tenant-keyed locale key for a truthy tenant, the plain
'locale' key otherwise. -/
def savedLocaleKey (tenantId : Option String) : String :=
  match tenantId with
  | some t => if t = "" then "locale" else "locale:" ++ t
  | none => "locale"

structure I18nInitResult where
  locale : Option String
  store : Store
  fetchedServer : Bool
deriving DecidableEq, Repr

/-- Body of the I18nProvider effect for an already-resolved tenant. `valid`
models membership in the translations dictionary (lib/i18n/translations);
`serverLocale` is settings.locale of the GET /api/clients response, none when
absent or when the fetch fails. A truthy valid saved locale short-circuits;
otherwise, with a truthy tenant, the server is consulted and a valid server
locale is written to both the tenant-keyed and the global key. -/
def i18nInitCore (valid : String → Bool) (tenantId : Option String)
    (st : Store) (serverLocale : Option String) : I18nInitResult :=
  let key := savedLocaleKey tenantId
  let saved := getStr st key
  if strTruthy saved && valid (saved.getD "") then
    { locale := saved, store := st, fetchedServer := false }
  else if !strTruthy tenantId then
    { locale := none, store := st, fetchedServer := false }
  else
    match serverLocale with
    | some sl =>
        if valid sl then
          { locale := some sl
            store := Store.set (Store.set st key (.str sl)) "locale" (.str sl)
            fetchedServer := true }
        else { locale := none, store := st, fetchedServer := true }
    | none => { locale := none, store := st, fetchedServer := true }

/-- One run of the I18nProvider effect. -/
def i18nInitRun (valid : String → Bool) (st : Store)
    (serverLocale : Option String) : I18nInitResult :=
  i18nInitCore valid (i18nResolveTenantId st) st serverLocale

/-- setLocale writes the new locale to the tenant-keyed key and the global
key. -/
def setLocaleCore (newLocale : String) (tenantId : Option String)
    (st : Store) : Store :=
  let key := savedLocaleKey tenantId
  Store.set (Store.set st key (.str newLocale)) "locale" (.str newLocale)

def setLocaleRun (newLocale : String) (st : Store) : Store :=
  setLocaleCore newLocale (i18nResolveTenantId st) st

/-! ## Concrete example values used by witnesses and counterexamples -/

/-- A conversation under human takeover with a pause deadline in metadata. -/
def handoffConvExample : Conversation :=
  { project_id := "p", conversation_id := "c", status := "handoff",
    metadata := some (.obj [("human_takeover_until",
      .str "2030-01-01T00:00:00Z")]) }

def adminUserExample : User := { role := "admin" }

def clientUserExample : User :=
  { role := "client", client_id := some "c42", client_name := some "Acme" }

/-- A store as it looks after an admin picked a tenant. -/
def adminStoreExample : Store :=
  [("user", .user adminUserExample), ("active_tenant_id", .str "t1")]

/-- The admin store with a saved tenant-keyed locale. -/
def i18nSavedStoreExample : Store :=
  [("user", .user adminUserExample), ("active_tenant_id", .str "t1"),
   ("locale:t1", .str "pt")]

def sendReadyExample : SendUiState :=
  { replyText := "hello", sending := false, sendError := none }

def sendBlankExample : SendUiState :=
  { replyText := "   ", sending := false, sendError := none }

/-- A message whose stored text is the empty string and whose payload is
absent. -/
def emptyTextMessageExample : Message :=
  { id := "m1", direction := "in", message_type := "text", text := some "" }

/-- A Meta webhook payload with a nested message text. -/
def metaTextPayload (s : String) : Json :=
  .obj [("entry", .arr [.obj [("messaging", .arr [.obj [("message",
    .obj [("text", .str s)])]])]])]

/-- A Meta webhook payload for a story reply. -/
def metaStoryReplyPayload : Json :=
  .obj [("entry", .arr [.obj [("messaging", .arr [.obj [("message",
    .obj [("reply_to", .obj [("story", .obj [("id", .str "s1")])])])]])]])]

/-- A Meta webhook payload with a single attachment of the given type. -/
def metaAttachmentPayload (t : String) : Json :=
  .obj [("entry", .arr [.obj [("messaging", .arr [.obj [("message",
    .obj [("attachments", .arr [.obj [("type", .str t)]])])]])]])]

/-- A Meta webhook payload with a postback of the given title. -/
def metaPostbackPayload (title : String) : Json :=
  .obj [("entry", .arr [.obj [("messaging", .arr [.obj [("postback",
    .obj [("title", .str title)])]])]])]

def plainTextMessageExample : Message :=
  { id := "m2", direction := "in", message_type := "text",
    text := some "hi" }

/-- A message without stored text whose payload carries a nested text. -/
def payloadMessageExample : Message :=
  { id := "m3", direction := "in", message_type := "text", text := none,
    raw_payload := some (metaTextPayload "oi") }

/-! ## Helper lemmas -/

theorem handleLoginStore_get_of_ne (tok : String) (u : User) (st : Store)
    (k : String) (h1 : k ≠ "active_tenant_id")
    (h2 : k ≠ "active_tenant_name") :
    Store.get (handleLoginStore tok u st) k =
      Store.get (Store.set (Store.set st "token" (.str tok)) "user"
        (.user u)) k := by
  unfold handleLoginStore
  by_cases hr : u.role = "client"
  · simp only [hr, if_true]
    cases u.client_id with
    | none => rfl
    | some cid =>
      by_cases hcid : cid = ""
      · simp [hcid]
      · simp [hcid, Store.get_set_other _ _ _ _ h2,
          Store.get_set_other _ _ _ _ h1]
  · simp [hr]

theorem resolveTenantId_user (st : Store) (u : User)
    (h : Store.get st "user" = some (.user u)) :
    resolveTenantId st =
      if u.role = "admin" then getStr st "active_tenant_id"
      else u.client_id := by
  unfold resolveTenantId
  rw [h]

theorem localeKey_ne_locale (tid : String) : "locale:" ++ tid ≠ "locale" := by
  intro h
  have hl := congrArg String.length h
  rw [String.length_append] at hl
  have h7 : "locale:".length = 7 := rfl
  have h6 : "locale".length = 6 := rfl
  rw [h7, h6] at hl
  omega

/-! ## Claims -/

/-- C1: the live portal first fetches GET /api/live/token; a response of type
'portal' selects the conversation list re-polled every 10000 ms, a response
carrying messages selects the single-conversation view re-polled every
3000 ms, and every polling interval of the live portal lies between 3000 and
10000 ms. -/
theorem C1_live_portal_polling :
    (∀ token : String, (liveInitialRequest token).method = "GET" ∧
      (liveInitialRequest token).path = "/api/live/" ++ token) ∧
    (∀ msgs, detectPortalType (some "portal") msgs = some PortalType.portal) ∧
    (∀ s msgs, detectPortalType (some s) (some msgs) =
      (if s = "portal" then some PortalType.portal
       else some PortalType.liveView)) ∧
    (∀ msgs : List Message,
      detectPortalType none (some msgs) = some PortalType.liveView) ∧
    (∀ pt, listPollTimerMs pt =
      if pt = some PortalType.portal then some 10000 else none) ∧
    conversationViewPollIntervalMs = 3000 ∧
    (∀ token : String, (liveListRequest token).path =
      "/api/live/" ++ token ++ "/conversations?limit=100") ∧
    (∀ token cid : String, (liveDetailRequest token cid).path =
      "/api/live/" ++ token ++ "/conversations/" ++ cid) ∧
    livePortalPollIntervalsMs.all
      (fun i => decide (3000 ≤ i) && decide (i ≤ 10000)) = true := by
  refine ⟨fun _ => ⟨rfl, rfl⟩, fun msgs => rfl, ?_, fun _ => rfl, ?_, rfl,
    fun _ => rfl, fun _ _ => rfl, by decide⟩
  · intro s msgs
    by_cases h : s = "portal" <;> simp [detectPortalType, h]
  · intro pt
    by_cases h : pt = some PortalType.portal <;> simp [listPollTimerMs, h]

/-- C2: live-portal requests are unauthenticated, carrying only the
Content-Type header with the opaque token in the URL path, and every write
action of the conversation view is rendered exactly when the token type is
'portal'. -/
theorem C2_portal_token_access :
    (∀ method path extra body,
      (portalFetchRequest method path extra body).headers =
        [contentTypeHeader] ++ extra) ∧
    (∀ token cid text newStatus fu,
      (livePortalRequests token cid text newStatus fu).all
        (fun r => (r.headers.lookup "Authorization").isNone) = true) ∧
    (∀ token cid text newStatus fu,
      (livePortalRequests token cid text newStatus fu).all
        (fun r => r.headers == [contentTypeHeader]) = true) ∧
    (∀ token cid text newStatus : String,
      (liveSendRequest token cid text).path =
        "/api/live/" ++ token ++ "/conversations/" ++ cid ++ "/send" ∧
      (liveStatusRequest token cid newStatus).path =
        "/api/live/" ++ token ++ "/conversations/" ++ cid ++ "/status") ∧
    canAct PortalType.portal = true ∧
    canAct PortalType.liveView = false ∧
    (∀ pt, replyBoxVisible pt = canAct pt ∧
      statusToggleVisible pt = canAct pt ∧
      followupButtonVisible pt = canAct pt ∧
      readOnlyFooterVisible pt = !canAct pt) := by
  refine ⟨fun _ _ _ _ => rfl, fun _ _ _ _ _ => rfl, fun _ _ _ _ _ => rfl,
    fun _ _ _ _ => ⟨rfl, rfl⟩, rfl, rfl, fun pt => ⟨rfl, rfl, rfl, rfl⟩⟩

/-- C3: every status transition is a PATCH to the conversation's /status
endpoint with a string status and optional reason, the hand-off controls are
a two-state toggle (non-handoff offers only 'handoff', handoff offers only
'open') in all three surfaces, and the pause window is surfaced from
metadata.human_takeover_until. -/
theorem C3_status_state_machine :
    (∀ st p c s r, (updateStatusRequest st p c s r).method = "PATCH" ∧
      (updateStatusRequest st p c s r).path =
        "/api/conversations/" ++ p ++ "/" ++ c ++ "/status" ∧
      (updateStatusRequest st p c s r).body = some (statusJson s r)) ∧
    (∀ st conv s, (quickStatusRequest st conv s).method = "PATCH" ∧
      (quickStatusRequest st conv s).path =
        "/api/conversations/" ++ conv.project_id ++ "/" ++
          conv.conversation_id ++ "/status") ∧
    (∀ tok cid s, (liveStatusRequest tok cid s).method = "PATCH" ∧
      (liveStatusRequest tok cid s).path =
        "/api/live/" ++ tok ++ "/conversations/" ++ cid ++ "/status") ∧
    (∀ s, viewerOfferedTarget s =
      if s = "handoff" then "open" else "handoff") ∧
    (∀ s, portalOfferedTarget s = viewerOfferedTarget s) ∧
    (∀ s, listOfferedTarget s = viewerOfferedTarget s) ∧
    viewerOfferedTarget "handoff" = "open" ∧
    (∀ s, s ≠ "handoff" → viewerOfferedTarget s = "handoff") ∧
    (∀ conv, handoffBannerVisible conv = true →
      conv.status = "handoff" ∧ (takeoverUntil conv).isSome = true) := by
  refine ⟨fun _ _ _ _ _ => ⟨rfl, rfl, rfl⟩, fun _ _ _ => ⟨rfl, rfl⟩,
    fun _ _ _ => ⟨rfl, rfl⟩, fun _ => rfl, fun _ => rfl, ?_, rfl, ?_, ?_⟩
  · intro s
    by_cases h : s = "handoff" <;>
      simp [listOfferedTarget, viewerOfferedTarget, h]
  · intro s h
    simp [viewerOfferedTarget, h]
  · intro conv h
    unfold handoffBannerVisible at h
    rw [Bool.and_eq_true] at h
    obtain ⟨h1, h2⟩ := h
    refine ⟨by simpa using h1, ?_⟩
    cases hu : takeoverUntil conv with
    | none => rw [hu] at h2; simp [optTruthy] at h2
    | some j => rfl

/-- Witness for C3 at concrete inputs: a non-handoff status is offered only
'handoff', and a visible banner comes with handoff status and a takeover
deadline in metadata. -/
theorem C3_status_state_machine_witness :
    viewerOfferedTarget "open" = "handoff" ∧
    handoffConvExample.status = "handoff" ∧
    (takeoverUntil handoffConvExample).isSome = true := by
  have h := C3_status_state_machine
  refine ⟨h.2.2.2.2.2.2.2.1 "open" (by decide), ?_⟩
  exact h.2.2.2.2.2.2.2.2 handoffConvExample rfl

/-- C4 counterexample: the staff/mobile conversation list view has no polling
interval (loadConversations runs once from the mount effect), so it is not
true that each of the listed refresh implementations repeatedly refetches its
data. -/
theorem C4_counterexample :
    ¬ (dashboardPollingImpls.all (fun v => v.pollIntervalMs.isSome) = true) := by
  decide

/-- C4 (amended): near-real-time updates are interval polling over REST; the
staff viewer polls at 5000 ms, the portal list at 10000 ms and the portal
detail at 3000 ms, while the staff/mobile conversation list fetches once on
mount without any polling interval. -/
theorem C4_polling_layout :
    staffViewerPolling.pollIntervalMs = some 5000 ∧
    useConversationDefaultPollIntervalMs = 5000 ∧
    portalListPolling.pollIntervalMs = some 10000 ∧
    portalDetailPolling.pollIntervalMs = some 3000 ∧
    conversationViewPollIntervalMs = 3000 ∧
    listPollTimerMs (some PortalType.portal) = some 10000 ∧
    conversationsListPolling.pollIntervalMs = none ∧
    conversationsListPolling.fetchesOnMount = true ∧
    dashboardPollingImpls.all (fun v => v.fetchesOnMount) = true := by
  refine ⟨rfl, rfl, rfl, rfl, rfl, rfl, rfl, rfl, by decide⟩

/-- C5: conversation-list, conversation-detail and Meta-configuration
requests carry the resolved tenant identifier in the path or as the
project_id parameter, and resolution gives non-admin users their own
client_id while admins use the stored active tenant selection. -/
theorem C5_tenant_scoping :
    (∀ st u, Store.get st "user" = some (.user u) → u.role ≠ "admin" →
      resolveTenantId st = u.client_id) ∧
    (∀ st u, Store.get st "user" = some (.user u) → u.role = "admin" →
      resolveTenantId st = getStr st "active_tenant_id") ∧
    (∀ st r, listRequestIssued st = some r →
      ∃ t, resolveTenantId st = some t ∧ t ≠ "" ∧
        r.params.lookup "project_id" = some t) ∧
    (∀ st r, metaConfigRequestIssued st = some r →
      ∃ t, resolveTenantId st = some t ∧ t ≠ "" ∧
        r.path = "/api/config/meta/" ++ t) ∧
    (∀ st p c, (conversationDetailRequest st p c).path =
      "/api/conversations/" ++ p ++ "/" ++ c) ∧
    (∀ conv, conversationRoutePath conv =
      "/dash/conversations/" ++ conv.project_id ++ "/" ++
        conv.conversation_id) := by
  refine ⟨?_, ?_, ?_, ?_, fun _ _ _ => rfl, fun _ => rfl⟩
  · intro st u h hr
    unfold resolveTenantId
    rw [h]
    simp [hr]
  · intro st u h hr
    unfold resolveTenantId
    rw [h]
    simp [hr]
  · intro st r h
    unfold listRequestIssued at h
    cases hres : resolveTenantId st with
    | none => rw [hres] at h; exact absurd h (by simp)
    | some t =>
      rw [hres] at h
      by_cases ht : t = ""
      · subst ht; simp at h
      · rw [show (match some t with
            | some t => if t ≠ "" then some (conversationsListRequest st t)
              else none
            | none => none) =
            (if t ≠ "" then some (conversationsListRequest st t) else none)
            from rfl, if_pos ht] at h
        obtain rfl := (Option.some.injEq _ _).mp h.symm
        exact ⟨t, rfl, ht, by simp [conversationsListRequest, List.lookup]⟩
  · intro st r h
    unfold metaConfigRequestIssued at h
    cases hres : resolveTenantId st with
    | none => rw [hres] at h; exact absurd h (by simp)
    | some t =>
      rw [hres] at h
      by_cases ht : t = ""
      · subst ht; simp at h
      · rw [show (match some t with
            | some t => if t ≠ "" then some (metaConfigRequest st t)
              else none
            | none => none) =
            (if t ≠ "" then some (metaConfigRequest st t) else none)
            from rfl, if_pos ht] at h
        obtain rfl := (Option.some.injEq _ _).mp h.symm
        exact ⟨t, rfl, ht, rfl⟩

/-- Witness for C5 at a concrete admin store with tenant t1: the list and
config requests both carry t1, and resolution reads the stored selection. -/
theorem C5_tenant_scoping_witness :
    resolveTenantId adminStoreExample = getStr adminStoreExample
      "active_tenant_id" ∧
    (∃ t, resolveTenantId adminStoreExample = some t ∧ t ≠ "" ∧
      (conversationsListRequest adminStoreExample "t1").params.lookup
        "project_id" = some t) ∧
    (∃ t, resolveTenantId adminStoreExample = some t ∧ t ≠ "" ∧
      (metaConfigRequest adminStoreExample "t1").path =
        "/api/config/meta/" ++ t) := by
  have h := C5_tenant_scoping
  exact ⟨h.2.1 adminStoreExample adminUserExample rfl rfl,
    h.2.2.1 adminStoreExample (conversationsListRequest adminStoreExample
      "t1") rfl,
    h.2.2.2.1 adminStoreExample (metaConfigRequest adminStoreExample "t1")
      rfl⟩

/-- C6: login persists the token under 'token' and the user under 'user'
(plus the tenant keys for client users), the admin open-dashboard action
stores the chosen client under the same tenant keys, and pages resolve the
tenant from these keys (active_tenant_id for admins, client_id otherwise). -/
theorem C6_local_storage_session :
    (∀ tok u st,
      Store.get (handleLoginStore tok u st) "token" = some (.str tok) ∧
      Store.get (handleLoginStore tok u st) "user" = some (.user u)) ∧
    (∀ tok u st cid, u.role = "client" → u.client_id = some cid → cid ≠ "" →
      getStr (handleLoginStore tok u st) "active_tenant_id" = some cid ∧
      getStr (handleLoginStore tok u st) "active_tenant_name" =
        some (u.client_name.getD "")) ∧
    (∀ c st,
      getStr (handleOpenDashboardStore c st) "active_tenant_id" =
        some c.id ∧
      getStr (handleOpenDashboardStore c st) "active_tenant_name" =
        some c.name) ∧
    (∀ u c st, u.role = "admin" →
      resolveTenantId (handleOpenDashboardStore c
        (Store.set st "user" (.user u))) = some c.id) ∧
    (∀ tok u st cid, u.role = "client" → u.client_id = some cid →
      resolveTenantId (handleLoginStore tok u st) = some cid) := by
  have huser : ∀ tok u st,
      Store.get (handleLoginStore tok u st) "user" = some (.user u) := by
    intro tok u st
    rw [handleLoginStore_get_of_ne tok u st "user" (by decide) (by decide)]
    exact Store.get_set_self _ _ _
  refine ⟨?_, ?_, ?_, ?_, ?_⟩
  · intro tok u st
    refine ⟨?_, huser tok u st⟩
    rw [handleLoginStore_get_of_ne tok u st "token" (by decide) (by decide)]
    rw [Store.get_set_other _ _ _ _ (by decide)]
    exact Store.get_set_self _ _ _
  · intro tok u st cid hr hc hcid
    unfold handleLoginStore
    rw [hr, hc, if_pos rfl]
    simp only [ne_eq, hcid, not_false_eq_true, if_true]
    constructor
    · rw [getStr_set_other _ _ _ _ (by decide)]
      exact getStr_set_self _ _ _
    · exact getStr_set_self _ _ _
  · intro c st
    unfold handleOpenDashboardStore
    constructor
    · rw [getStr_set_other _ _ _ _ (by decide)]
      exact getStr_set_self _ _ _
    · exact getStr_set_self _ _ _
  · intro u c st hr
    have hu : Store.get (handleOpenDashboardStore c
        (Store.set st "user" (.user u))) "user" = some (.user u) := by
      unfold handleOpenDashboardStore
      rw [Store.get_set_other _ _ _ _ (by decide),
        Store.get_set_other _ _ _ _ (by decide)]
      exact Store.get_set_self _ _ _
    rw [resolveTenantId_user _ u hu, if_pos hr]
    unfold handleOpenDashboardStore
    rw [getStr_set_other _ _ _ _ (by decide)]
    exact getStr_set_self _ _ _
  · intro tok u st cid hr hc
    rw [resolveTenantId_user _ u (huser tok u st),
      if_neg (by rw [hr]; decide)]
    exact hc

/-- Witness for C6: a concrete client login stores its tenant id and resolves
back to it, and a concrete admin tenant selection resolves to the chosen
client. -/
theorem C6_local_storage_session_witness :
    getStr (handleLoginStore "tok1" clientUserExample [])
      "active_tenant_id" = some "c42" ∧
    resolveTenantId (handleOpenDashboardStore ⟨"t9", "Tenant 9"⟩
      (Store.set [] "user" (.user adminUserExample))) = some "t9" ∧
    resolveTenantId (handleLoginStore "tok1" clientUserExample []) =
      some "c42" := by
  have h := C6_local_storage_session
  exact ⟨(h.2.1 "tok1" clientUserExample [] "c42" rfl rfl (by decide)).1,
    h.2.2.2.1 adminUserExample ⟨"t9", "Tenant 9"⟩ [] rfl,
    h.2.2.2.2 "tok1" clientUserExample [] "c42" rfl rfl⟩

/-- C7: the i18n provider reads the tenant-keyed locale key (the plain
'locale' key when there is no tenant); a valid saved locale short-circuits
the server fetch, otherwise the server locale is fetched and mirrored to both
the tenant-keyed and global keys, and setLocale writes both keys. -/
theorem C7_locale_persistence :
    savedLocaleKey none = "locale" ∧
    (∀ t : String, t ≠ "" → savedLocaleKey (some t) = "locale:" ++ t) ∧
    (∀ valid st sl tid s, i18nResolveTenantId st = some tid → tid ≠ "" →
      getStr st ("locale:" ++ tid) = some s → s ≠ "" → valid s = true →
      i18nInitRun valid st sl =
        { locale := some s, store := st, fetchedServer := false }) ∧
    (∀ valid st sl tid, i18nResolveTenantId st = some tid → tid ≠ "" →
      getStr st ("locale:" ++ tid) = none → valid sl = true →
      (i18nInitRun valid st (some sl)).fetchedServer = true ∧
      getStr (i18nInitRun valid st (some sl)).store ("locale:" ++ tid) =
        some sl ∧
      getStr (i18nInitRun valid st (some sl)).store "locale" = some sl ∧
      (i18nInitRun valid st (some sl)).locale = some sl) ∧
    (∀ l st tid, i18nResolveTenantId st = some tid → tid ≠ "" →
      getStr (setLocaleRun l st) ("locale:" ++ tid) = some l ∧
      getStr (setLocaleRun l st) "locale" = some l) := by
  refine ⟨rfl, ?_, ?_, ?_, ?_⟩
  · intro t ht
    simp [savedLocaleKey, ht]
  · intro valid st sl tid s hres htid hsaved hs hv
    have hkey : savedLocaleKey (some tid) = "locale:" ++ tid := by
      simp [savedLocaleKey, htid]
    simp [i18nInitRun, i18nInitCore, hres, hkey, hsaved, strTruthy, hs, hv]
  · intro valid st sl tid hres htid hsaved hv
    have hkey : savedLocaleKey (some tid) = "locale:" ++ tid := by
      simp [savedLocaleKey, htid]
    have hrun : i18nInitRun valid st (some sl) =
        { locale := some sl
          store := Store.set (Store.set st ("locale:" ++ tid) (.str sl))
            "locale" (.str sl)
          fetchedServer := true } := by
      simp [i18nInitRun, i18nInitCore, hres, hkey, hsaved, strTruthy, htid,
        hv]
    rw [hrun]
    refine ⟨rfl, ?_, ?_, rfl⟩
    · rw [getStr_set_other _ _ _ _ (localeKey_ne_locale tid)]
      exact getStr_set_self _ _ _
    · exact getStr_set_self _ _ _
  · intro l st tid hres htid
    have hkey : savedLocaleKey (some tid) = "locale:" ++ tid := by
      simp [savedLocaleKey, htid]
    have hrun : setLocaleRun l st =
        Store.set (Store.set st ("locale:" ++ tid) (.str l)) "locale"
          (.str l) := by
      simp [setLocaleRun, setLocaleCore, hres, hkey]
    rw [hrun]
    refine ⟨?_, getStr_set_self _ _ _⟩
    rw [getStr_set_other _ _ _ _ (localeKey_ne_locale tid)]
    exact getStr_set_self _ _ _

/-- Witness for C7 at concrete stores: a saved 'pt' short-circuits the fetch,
a missing saved locale mirrors the server 'pt' into the tenant-keyed key, and
setLocale 'es' lands in the tenant-keyed key. -/
theorem C7_locale_persistence_witness :
    i18nInitRun (fun s => s == "pt") i18nSavedStoreExample none =
      { locale := some "pt", store := i18nSavedStoreExample,
        fetchedServer := false } ∧
    getStr (i18nInitRun (fun s => s == "pt") adminStoreExample
      (some "pt")).store ("locale:" ++ "t1") = some "pt" ∧
    getStr (setLocaleRun "es" adminStoreExample) ("locale:" ++ "t1") =
      some "es" := by
  have h := C7_locale_persistence
  refine ⟨h.2.2.1 (fun s => s == "pt") i18nSavedStoreExample none "t1" "pt"
    rfl (by decide) rfl (by decide) rfl, ?_, ?_⟩
  · exact (h.2.2.2.1 (fun s => s == "pt") adminStoreExample "pt" "t1" rfl
      (by decide) rfl rfl).2.1
  · exact (h.2.2.2.2 "es" adminStoreExample "t1" rfl (by decide)).1

/-- C8: through the shared axios client a 401 response clears the stored
token and redirects to /login before the promise is rejected, while any
other status passes through with the store untouched and no redirect. -/
theorem C8_unauthorized_logout :
    (∀ st, responseInterceptor 401 st =
      { store := Store.remove st "token", redirect := some "/login",
        rejected := true }) ∧
    (∀ st, Store.get (responseInterceptor 401 st).store "token" = none) ∧
    (∀ status st, status ≠ 401 →
      (responseInterceptor status st).store = st ∧
      (responseInterceptor status st).redirect = none) ∧
    (∀ status st, 200 ≤ status → status < 300 →
      responseInterceptor status st =
        { store := st, redirect := none, rejected := false }) ∧
    (∀ st, responseErrorInterceptor none st =
      { store := st, redirect := none, rejected := true }) := by
  have h401 : ∀ st : Store, responseInterceptor 401 st =
      { store := Store.remove st "token", redirect := some "/login",
        rejected := true } := by
    intro st
    simp [responseInterceptor, responseErrorInterceptor]
  refine ⟨h401, ?_, ?_, ?_, ?_⟩
  · intro st
    rw [h401 st]
    exact Store.get_remove_self st "token"
  · intro status st h
    unfold responseInterceptor responseErrorInterceptor
    by_cases h2 : 200 ≤ status ∧ status < 300
    · rw [if_pos h2]
      exact ⟨rfl, rfl⟩
    · rw [if_neg h2, if_neg (by simpa using h)]
      exact ⟨rfl, rfl⟩
  · intro status st h1 h2
    unfold responseInterceptor
    rw [if_pos ⟨h1, h2⟩]
  · intro st
    rfl

/-- Witness for C8 at concrete statuses: a 500 passes through untouched and a
204 takes the success path. -/
theorem C8_unauthorized_logout_witness :
    (responseInterceptor 500 adminStoreExample).store = adminStoreExample ∧
    (responseInterceptor 500 adminStoreExample).redirect = none ∧
    responseInterceptor 204 adminStoreExample =
      { store := adminStoreExample, redirect := none, rejected := false } := by
  have h := C8_unauthorized_logout
  exact ⟨(h.2.2.1 500 adminStoreExample (by decide)).1,
    (h.2.2.1 500 adminStoreExample (by decide)).2,
    h.2.2.2.1 204 adminStoreExample (by decide) (by decide)⟩

/-- C9: in both reply boxes a send happens only with non-blank trimmed text
and no send in flight (the button is disabled otherwise); success clears the
input and refetches the conversation, failure leaves the input untouched and
only sets the error message. -/
theorem C9_send_guard :
    (∀ st r, sendButtonDisabled st = true →
      (dashHandleSend st r).requestSent = false ∧
      (dashHandleSend st r).state = st) ∧
    (∀ st r rr, sendButtonDisabled st = true →
      (portalHandleSend st r rr).requestSent = false ∧
      (portalHandleSend st r rr).state = st) ∧
    (∀ st r, (dashHandleSend st r).requestSent = true →
      jsTrim st.replyText ≠ "" ∧ st.sending = false) ∧
    (∀ st, jsTrim st.replyText ≠ "" → st.sending = false →
      dashHandleSend st (.ok ()) =
        { state := { replyText := "", sending := false, sendError := none },
          requestSent := true, refetched := true }) ∧
    (∀ st e, jsTrim st.replyText ≠ "" → st.sending = false →
      (dashHandleSend st (.error e)).state.replyText = st.replyText ∧
      (dashHandleSend st (.error e)).state.sendError = some e ∧
      (dashHandleSend st (.error e)).refetched = false) ∧
    (∀ st rr, jsTrim st.replyText ≠ "" → st.sending = false →
      (portalHandleSend st (.ok ()) rr).state.replyText = "" ∧
      (portalHandleSend st (.ok ()) rr).refetched = true) ∧
    (∀ st e rr, jsTrim st.replyText ≠ "" → st.sending = false →
      (portalHandleSend st (.error e) rr).state.replyText = st.replyText ∧
      (portalHandleSend st (.error e) rr).state.sendError = some e ∧
      (portalHandleSend st (.error e) rr).refetched = false) := by
  refine ⟨?_, ?_, ?_, ?_, ?_, ?_, ?_⟩
  · intro st r h
    unfold dashHandleSend
    rw [if_pos h]
    exact ⟨rfl, rfl⟩
  · intro st r rr h
    unfold portalHandleSend
    rw [if_pos h]
    exact ⟨rfl, rfl⟩
  · intro st r h
    rcases Bool.eq_false_or_eq_true (sendButtonDisabled st) with hd | hd
    · exfalso
      unfold dashHandleSend at h
      rw [if_pos hd] at h
      simp at h
    · have hd2 := hd
      simp only [sendButtonDisabled, Bool.or_eq_false_iff,
        beq_eq_false_iff_ne, ne_eq] at hd2
      exact hd2
  · intro st h1 h2
    have hd : sendButtonDisabled st = false := by
      simp [sendButtonDisabled, h1, h2]
    unfold dashHandleSend
    rw [hd]
    simp
  · intro st e h1 h2
    have hd : sendButtonDisabled st = false := by
      simp [sendButtonDisabled, h1, h2]
    unfold dashHandleSend
    rw [hd]
    simp
  · intro st rr h1 h2
    have hd : sendButtonDisabled st = false := by
      simp [sendButtonDisabled, h1, h2]
    unfold portalHandleSend
    rw [hd]
    cases rr <;> simp
  · intro st e rr h1 h2
    have hd : sendButtonDisabled st = false := by
      simp [sendButtonDisabled, h1, h2]
    unfold portalHandleSend
    rw [hd]
    simp

/-- Witness for C9 at concrete states: a ready 'hello' state sends and
clears, a failed send keeps the text, and a blank input never sends. -/
theorem C9_send_guard_witness :
    dashHandleSend sendReadyExample (.ok ()) =
      { state := { replyText := "", sending := false, sendError := none },
        requestSent := true, refetched := true } ∧
    (dashHandleSend sendReadyExample (.error "boom")).state.replyText =
      "hello" ∧
    (portalHandleSend sendReadyExample (.ok ()) (.ok ())).state.replyText =
      "" ∧
    (dashHandleSend sendBlankExample (.ok ())).requestSent = false := by
  have h := C9_send_guard
  refine ⟨h.2.2.2.1 sendReadyExample (by decide) rfl,
    (h.2.2.2.2.1 sendReadyExample "boom" (by decide) rfl).1,
    (h.2.2.2.2.2.1 sendReadyExample (.ok ()) (by decide) rfl).1,
    (h.1 sendBlankExample (.ok ()) (by decide)).1⟩

/-- C10 counterexample: a message whose stored text is the empty string is
non-null, yet getMessageText does not return it (the source tests JavaScript
truthiness, not nullness), returning null instead when no payload exists. -/
theorem C10_counterexample :
    emptyTextMessageExample.text = some "" ∧
    getMessageText emptyTextMessageExample = none ∧
    getMessageText emptyTextMessageExample ≠ emptyTextMessageExample.text := by
  refine ⟨rfl, rfl, by decide⟩

/-- C10 (amended): getMessageText is total; it returns msg.text when truthy
(non-null and non-empty), otherwise derives a display string from the Meta
webhook payload (nested message text, the story-reply marker, the bracketed
first-attachment type with an 'attachment' fallback, or the postback title
with a fallback), and returns null when the payload is absent, falsy, or
matches none of these shapes. -/
theorem C10_message_text_total :
    (∀ msg s, msg.text = some s → s ≠ "" → getMessageText msg = some s) ∧
    (∀ msg, strTruthy msg.text = false → msg.raw_payload = none →
      getMessageText msg = none) ∧
    (∀ msg raw, strTruthy msg.text = false → msg.raw_payload = some raw →
      getMessageText msg =
        (if raw.truthy then rawPayloadText raw else none)) ∧
    (∀ s, rawPayloadText (metaTextPayload s) =
      (if s = "" then none else some s)) ∧
    rawPayloadText metaStoryReplyPayload = some "[Resposta a story]" ∧
    (∀ t, rawPayloadText (metaAttachmentPayload t) =
      some ("[" ++ (if t = "" then "attachment" else t) ++ "]")) ∧
    (∀ ttl, rawPayloadText (metaPostbackPayload ttl) =
      some (if ttl = "" then "[postback]" else ttl)) ∧
    (∀ raw, metaMessaging raw = none → rawPayloadText raw = none) := by
  refine ⟨?_, ?_, ?_, ?_, by decide, ?_, ?_, ?_⟩
  · intro msg s h hs
    simp [getMessageText, h, strTruthy, hs]
  · intro msg h1 h2
    simp [getMessageText, h1, h2]
  · intro msg raw h1 h2
    simp [getMessageText, h1, h2]
  · intro s
    by_cases hs : s = "" <;>
      simp [rawPayloadText, metaMessaging, metaTextPayload, Json.getField,
        Json.getIndex, Json.lengthVal, optTruthy, Json.truthy, Json.display,
        List.lookup, hs]
  · intro t
    by_cases ht : t = "" <;>
      simp [rawPayloadText, metaMessaging, metaAttachmentPayload,
        Json.getField, Json.getIndex, Json.lengthVal, optTruthy, Json.truthy,
        Json.display, List.lookup, ht]
  · intro ttl
    by_cases ht : ttl = "" <;>
      simp [rawPayloadText, metaMessaging, metaPostbackPayload,
        Json.getField, Json.getIndex, Json.lengthVal, optTruthy, Json.truthy,
        Json.display, List.lookup, ht]
  · intro raw h
    simp [rawPayloadText, h, optTruthy]

/-- Witness for C10 at concrete messages: stored text 'hi' is returned, the
empty-text no-payload message yields null, a payload-only message defers to
the payload, and a null payload derives nothing. -/
theorem C10_message_text_total_witness :
    getMessageText plainTextMessageExample = some "hi" ∧
    getMessageText emptyTextMessageExample = none ∧
    getMessageText payloadMessageExample =
      (if (metaTextPayload "oi").truthy then
        rawPayloadText (metaTextPayload "oi") else none) ∧
    rawPayloadText Json.null = none := by
  have h := C10_message_text_total
  exact ⟨h.1 plainTextMessageExample "hi" rfl (by decide),
    h.2.1 emptyTextMessageExample rfl rfl,
    h.2.2.1 payloadMessageExample (metaTextPayload "oi") rfl rfl,
    h.2.2.2.2.2.2.2 Json.null rfl⟩

end Superbot
